import Mathlib

/-!
Verification of the mpv platform hardware-acceleration glue modules:
the Direct3D 11 device/swapchain bootstrap helper
(`video/out/gpu/d3d11_helpers.c`) and the VideoToolbox OpenGL frame
mapper (`video/out/opengl/hwdec_osx.c`).

The platform APIs (D3D11CreateDevice, DXGI swapchain creation, CoreVideo
buffer introspection, CGL texture binding) are modelled as oracles:
explicit function parameters that decide the outcome of each external
call.  The control flow around those calls — the retry ladders, the
format tables, the validation checks — is translated directly from the C
source.
-/

set_option maxRecDepth 8192

/-! ## Direct3D feature levels (d3dcommon.h enum values) -/

/-- D3D_FEATURE_LEVEL_12_1 -/
def D3D_FEATURE_LEVEL_12_1 : Int := 0xc100
/-- D3D_FEATURE_LEVEL_12_0 -/
def D3D_FEATURE_LEVEL_12_0 : Int := 0xc000
/-- D3D_FEATURE_LEVEL_11_1 -/
def D3D_FEATURE_LEVEL_11_1 : Int := 0xb100
/-- D3D_FEATURE_LEVEL_11_0 -/
def D3D_FEATURE_LEVEL_11_0 : Int := 0xb000
/-- D3D_FEATURE_LEVEL_10_1 -/
def D3D_FEATURE_LEVEL_10_1 : Int := 0xa100
/-- D3D_FEATURE_LEVEL_10_0 -/
def D3D_FEATURE_LEVEL_10_0 : Int := 0xa000
/-- D3D_FEATURE_LEVEL_9_3 -/
def D3D_FEATURE_LEVEL_9_3 : Int := 0x9300
/-- D3D_FEATURE_LEVEL_9_2 -/
def D3D_FEATURE_LEVEL_9_2 : Int := 0x9200
/-- D3D_FEATURE_LEVEL_9_1 -/
def D3D_FEATURE_LEVEL_9_1 : Int := 0x9100

/-- The static `levels[]` table in `get_feature_levels`, highest to lowest. -/
def feature_levels : List Int :=
  [D3D_FEATURE_LEVEL_12_1, D3D_FEATURE_LEVEL_12_0,
   D3D_FEATURE_LEVEL_11_1, D3D_FEATURE_LEVEL_11_0,
   D3D_FEATURE_LEVEL_10_1, D3D_FEATURE_LEVEL_10_0,
   D3D_FEATURE_LEVEL_9_3, D3D_FEATURE_LEVEL_9_2,
   D3D_FEATURE_LEVEL_9_1]

/-- `get_feature_levels(max_fl, min_fl, &out)`: skip table entries above
`max_fl` (the C loop breaks when `levels[start] <= max_fl`), then take
entries while they are `>= min_fl` (the C loop breaks at the first entry
`< min_fl`).  The returned list stands for the `(*out, len)` pair. -/
def get_feature_levels (max_fl min_fl : Int) : List Int :=
  (feature_levels.dropWhile (fun l => decide (max_fl < l))).takeWhile
    (fun l => decide (min_fl ≤ l))

/-- Outcome of one `pD3D11CreateDevice` call, decided by the platform:
given the driver type (`warp`), the creation flags (`bgra`, `debug`) and
the feature-level array, either a device at some selected level is
produced or the call fails. -/
def Oracle : Type := Bool → Bool → Bool → List Int → Option Int

/-- `create_device`: build the feature-level array; if it is empty, fail
without ever invoking `pD3D11CreateDevice` (the oracle); otherwise the
platform call decides. -/
def create_device (oracle : Oracle) (warp bgra debug : Bool)
    (max_fl min_fl : Int) : Option Int :=
  let levels := get_feature_levels max_fl min_fl
  if levels.length = 0 then none
  else oracle warp bgra debug levels

/-- `struct d3d11_device_opts` (fields used by the .c file). -/
structure d3d11_device_opts where
  debug : Bool
  allow_warp : Bool
  force_warp : Bool
  max_feature_level : Int
  min_feature_level : Int
  max_frame_latency : Int
deriving DecidableEq

/-- The arguments of one `create_device` call made by the retry loop. -/
structure Attempt where
  warp : Bool
  bgra : Bool
  max_fl : Int
  min_fl : Int
deriving DecidableEq

/-- Result of the device retry loop, carrying the trace of attempted
`create_device` calls. -/
inductive DevResult where
  | success (level : Int) (warp : Bool) (bgra : Bool) (attempts : List Attempt)
  | failure (attempts : List Attempt)
  | outOfFuel (attempts : List Attempt)
deriving DecidableEq

/-- Trace of `create_device` calls recorded in a result. -/
def DevResult.attempts : DevResult → List Attempt
  | .success _ _ _ a => a
  | .failure a => a
  | .outOfFuel a => a

/-- True unless the fuel ran out (the modelled loop fell off the end). -/
def DevResult.finished : DevResult → Bool
  | .outOfFuel _ => false
  | _ => true

/-- `max_fl = max_fl ? max_fl : D3D_FEATURE_LEVEL_11_0` -/
def effMax (max_fl : Int) : Int :=
  if max_fl = 0 then D3D_FEATURE_LEVEL_11_0 else max_fl

/-- `min_fl = min_fl ? min_fl : D3D_FEATURE_LEVEL_9_1` -/
def effMin (min_fl : Int) : Int :=
  if min_fl = 0 then D3D_FEATURE_LEVEL_9_1 else min_fl

/-- The `do { ... } while (true)` retry loop of
`mp_d3d11_create_present_device`, with an explicit fuel bound (proved
sufficient below).  State: `(warp, bgra, max_fl, min_fl)`, exactly the
variables the C loop mutates; each iteration first substitutes the
default feature levels for zero, then attempts `create_device`, then on
failure applies the fallback ladder in source order. -/
def create_loop (oracle : Oracle) (opts : d3d11_device_opts) :
    Nat → Bool → Bool → Int → Int → List Attempt → DevResult
  | 0, _, _, _, _, acc => .outOfFuel acc
  | fuel + 1, warp, bgra, max_fl0, min_fl0, acc =>
    let max_fl := effMax max_fl0
    let min_fl := effMin min_fl0
    let acc2 := acc ++ [⟨warp, bgra, max_fl, min_fl⟩]
    match create_device oracle warp bgra opts.debug max_fl min_fl with
    | some level => .success level warp bgra acc2
    | none =>
      -- BGRA is recommended, but FL 10_0 hardware may not support it
      if bgra then
        create_loop oracle opts fuel warp false max_fl min_fl acc2
      -- Failed to create 12_0+ device, try 11_1
      else if D3D_FEATURE_LEVEL_12_0 ≤ max_fl ∧ min_fl ≤ D3D_FEATURE_LEVEL_11_1 then
        create_loop oracle opts fuel warp true D3D_FEATURE_LEVEL_11_1 min_fl acc2
      -- Failed to create 11_1+ device, try 11_0
      else if D3D_FEATURE_LEVEL_11_1 ≤ max_fl ∧ min_fl ≤ D3D_FEATURE_LEVEL_11_0 then
        create_loop oracle opts fuel warp true D3D_FEATURE_LEVEL_11_0 min_fl acc2
      -- Retry with WARP if allowed
      else if warp = false ∧ opts.allow_warp then
        create_loop oracle opts fuel true true
          opts.max_feature_level opts.min_feature_level acc2
      else .failure acc2

/-- The device-negotiation portion of `mp_d3d11_create_present_device`:
`warp = opts->force_warp; bgra = true; max_fl/min_fl from opts`, then the
retry loop.  The post-creation DXGI adapter introspection and logging are
outside the negotiation contract and not modelled.  Fuel 12 is proved to
be enough for every input (claim C2). -/
def mp_d3d11_create_present_device (oracle : Oracle)
    (opts : d3d11_device_opts) : DevResult :=
  create_loop oracle opts 12 opts.force_warp true
    opts.max_feature_level opts.min_feature_level []

/-! ## Claim C1: the capability-range fallback scenario -/

/-- The scenario platform of spec §8: the device can only be created
without BGRA support (extended color disabled), and only when the
feature-level array contains no level above 11_1 (tier_B); a successful
call selects the highest requested level. -/
def scenario_oracle : Oracle := fun _warp bgra _debug levels =>
  if bgra then none
  else if levels.any (fun l => decide (D3D_FEATURE_LEVEL_11_1 < l)) then none
  else levels.head?

/-- The scenario request: range [tier_A, tier_1] = [12_1, 9_1]. -/
def scenario_opts : d3d11_device_opts :=
  ⟨false, false, false, D3D_FEATURE_LEVEL_12_1, D3D_FEATURE_LEVEL_9_1, 3⟩

/-- C1: with requested range [tier_A, tier_1] = [12_1, 9_1] and a device
that can only be created at tier_B = 11_1 with BGRA (extended color)
disabled, negotiation succeeds at tier_B with BGRA disabled; exactly 2
failed attempts were made at tier_A first, one with BGRA enabled and one
with it disabled, before the successful attempt at tier_B. -/
theorem c1_scenario_tierB_success :
    mp_d3d11_create_present_device scenario_oracle scenario_opts =
      .success D3D_FEATURE_LEVEL_11_1 false false
        [⟨false, true, D3D_FEATURE_LEVEL_12_1, D3D_FEATURE_LEVEL_9_1⟩,
         ⟨false, false, D3D_FEATURE_LEVEL_12_1, D3D_FEATURE_LEVEL_9_1⟩,
         ⟨false, true, D3D_FEATURE_LEVEL_11_1, D3D_FEATURE_LEVEL_9_1⟩,
         ⟨false, false, D3D_FEATURE_LEVEL_11_1, D3D_FEATURE_LEVEL_9_1⟩] ∧
    ((mp_d3d11_create_present_device scenario_oracle scenario_opts).attempts.filter
        (fun a => a.max_fl == D3D_FEATURE_LEVEL_12_1)).length = 2 ∧
    ((mp_d3d11_create_present_device scenario_oracle scenario_opts).attempts.take 2).map
        Attempt.bgra = [true, false] := by
  decide

/-! ## Claim C3: empty feature-level range fails without a platform call -/

/-- If no element of a list lies in the window [min_fl, max_fl], the
drop/take selection of `get_feature_levels` is empty. -/
theorem no_overlap_select_nil (max_fl min_fl : Int) :
    ∀ xs : List Int, (∀ l ∈ xs, ¬(min_fl ≤ l ∧ l ≤ max_fl)) →
      (xs.dropWhile (fun l => decide (max_fl < l))).takeWhile
        (fun l => decide (min_fl ≤ l)) = [] := by
  intro xs
  induction xs with
  | nil => intro _; rfl
  | cons a t ih =>
    intro h
    by_cases ha : max_fl < a
    · rw [List.dropWhile_cons, if_pos (by simpa using ha)]
      exact ih fun l hl => h l (List.mem_cons_of_mem a hl)
    · have hmin : ¬ min_fl ≤ a := fun hm =>
        h a (List.mem_cons_self a t) ⟨hm, le_of_not_lt ha⟩
      rw [List.dropWhile_cons, if_neg (by simpa using ha),
        List.takeWhile_cons, if_neg (by simpa using hmin)]

/-- C3: when the requested [max, min] window has no overlap with the
static supported-level table, `get_feature_levels` returns the empty
range, and `create_device` fails for every oracle — in particular the
result does not depend on the oracle, so the platform entry point
`pD3D11CreateDevice` is never consulted. -/
theorem c3_no_overlap_fails_without_creation (max_fl min_fl : Int)
    (h : ∀ l ∈ feature_levels, ¬(min_fl ≤ l ∧ l ≤ max_fl)) :
    get_feature_levels max_fl min_fl = [] ∧
    ∀ (oracle : Oracle) (warp bgra debug : Bool),
      create_device oracle warp bgra debug max_fl min_fl = none := by
  have hnil : get_feature_levels max_fl min_fl = [] :=
    no_overlap_select_nil max_fl min_fl feature_levels h
  refine ⟨hnil, fun oracle warp bgra debug => ?_⟩
  unfold create_device
  simp [hnil]

/-- Witness for C3 at the concrete window [max, min] = [0x9000, 1],
which contains no table level. -/
theorem c3_witness :
    get_feature_levels 0x9000 1 = [] ∧
    create_device (fun _ _ _ _ => some 0) true false false 0x9000 1 = none := by
  have h := c3_no_overlap_fails_without_creation 0x9000 1 (by decide)
  exact ⟨h.1, h.2 (fun _ _ _ _ => some 0) true false false⟩

/-! ## Claim C10: zero feature-level options get the defaults every pass -/

/-- One-step unfolding of the retry loop (successor fuel). -/
theorem create_loop_succ (oracle : Oracle) (opts : d3d11_device_opts)
    (fuel : Nat) (warp bgra : Bool) (max_fl0 min_fl0 : Int)
    (acc : List Attempt) :
    create_loop oracle opts (fuel + 1) warp bgra max_fl0 min_fl0 acc =
      match create_device oracle warp bgra opts.debug
          (effMax max_fl0) (effMin min_fl0) with
      | some level => .success level warp bgra
          (acc ++ [⟨warp, bgra, effMax max_fl0, effMin min_fl0⟩])
      | none =>
        if bgra then
          create_loop oracle opts fuel warp false (effMax max_fl0) (effMin min_fl0)
            (acc ++ [⟨warp, bgra, effMax max_fl0, effMin min_fl0⟩])
        else if D3D_FEATURE_LEVEL_12_0 ≤ effMax max_fl0 ∧
            effMin min_fl0 ≤ D3D_FEATURE_LEVEL_11_1 then
          create_loop oracle opts fuel warp true D3D_FEATURE_LEVEL_11_1
            (effMin min_fl0)
            (acc ++ [⟨warp, bgra, effMax max_fl0, effMin min_fl0⟩])
        else if D3D_FEATURE_LEVEL_11_1 ≤ effMax max_fl0 ∧
            effMin min_fl0 ≤ D3D_FEATURE_LEVEL_11_0 then
          create_loop oracle opts fuel warp true D3D_FEATURE_LEVEL_11_0
            (effMin min_fl0)
            (acc ++ [⟨warp, bgra, effMax max_fl0, effMin min_fl0⟩])
        else if warp = false ∧ opts.allow_warp then
          create_loop oracle opts fuel true true
            opts.max_feature_level opts.min_feature_level
            (acc ++ [⟨warp, bgra, effMax max_fl0, effMin min_fl0⟩])
        else .failure (acc ++ [⟨warp, bgra, effMax max_fl0, effMin min_fl0⟩]) :=
  rfl

/-- Invariant of the retry loop under all-zero requested levels: every
recorded attempt uses the default range [11_0, 9_1]. -/
theorem c10_aux (oracle : Oracle) (opts : d3d11_device_opts)
    (hmax : opts.max_feature_level = 0) (hmin : opts.min_feature_level = 0) :
    ∀ (fuel : Nat) (warp bgra : Bool) (max_fl min_fl : Int)
      (acc : List Attempt),
      (max_fl = 0 ∨ max_fl = D3D_FEATURE_LEVEL_11_0) →
      (min_fl = 0 ∨ min_fl = D3D_FEATURE_LEVEL_9_1) →
      (∀ a ∈ acc,
        a.max_fl = D3D_FEATURE_LEVEL_11_0 ∧ a.min_fl = D3D_FEATURE_LEVEL_9_1) →
      ∀ a ∈ (create_loop oracle opts fuel warp bgra max_fl min_fl acc).attempts,
        a.max_fl = D3D_FEATURE_LEVEL_11_0 ∧ a.min_fl = D3D_FEATURE_LEVEL_9_1 := by
  intro fuel
  induction fuel with
  | zero =>
    intro warp bgra maxf minf acc _ _ hacc
    simpa [create_loop, DevResult.attempts] using hacc
  | succ fuel ih =>
    intro warp bgra maxf minf acc hm hn hacc
    have hem : effMax maxf = D3D_FEATURE_LEVEL_11_0 := by
      rcases hm with h | h <;> subst h <;> decide
    have hen : effMin minf = D3D_FEATURE_LEVEL_9_1 := by
      rcases hn with h | h <;> subst h <;> decide
    rw [create_loop_succ, hem, hen]
    have hacc2 : ∀ a ∈ acc ++
        [(⟨warp, bgra, D3D_FEATURE_LEVEL_11_0, D3D_FEATURE_LEVEL_9_1⟩ : Attempt)],
        a.max_fl = D3D_FEATURE_LEVEL_11_0 ∧ a.min_fl = D3D_FEATURE_LEVEL_9_1 := by
      intro a ha
      rcases List.mem_append.1 ha with h | h
      · exact hacc a h
      · simp only [List.mem_singleton] at h
        subst h
        exact ⟨rfl, rfl⟩
    rcases hcd : create_device oracle warp bgra opts.debug
        D3D_FEATURE_LEVEL_11_0 D3D_FEATURE_LEVEL_9_1 with _ | level
    · cases bgra with
      | true =>
        simp only [if_true]
        exact ih warp false _ _ _ (Or.inr rfl) (Or.inr rfl) hacc2
      | false =>
        rw [if_neg (by simp), if_neg (by decide), if_neg (by decide)]
        by_cases hw : warp = false ∧ opts.allow_warp
        · rw [if_pos hw, hmax, hmin]
          exact ih true true 0 0 _ (Or.inl rfl) (Or.inl rfl) hacc2
        · rw [if_neg hw]
          simpa [DevResult.attempts] using hacc2
    · simpa [DevResult.attempts] using hacc2

/-- C10: when the caller's max and min feature-level options are both 0,
every attempt made by `mp_d3d11_create_present_device` substitutes the
defaults `D3D_FEATURE_LEVEL_11_0` (max) and `D3D_FEATURE_LEVEL_9_1`
(min), and the substituted range has a nonempty feature-level list, so a
zeroed range never reaches the empty-range failure path. -/
theorem c10_zero_opts_use_defaults (oracle : Oracle)
    (opts : d3d11_device_opts)
    (hmax : opts.max_feature_level = 0) (hmin : opts.min_feature_level = 0)
    (a : Attempt)
    (ha : a ∈ (mp_d3d11_create_present_device oracle opts).attempts) :
    a.max_fl = D3D_FEATURE_LEVEL_11_0 ∧ a.min_fl = D3D_FEATURE_LEVEL_9_1 ∧
      get_feature_levels a.max_fl a.min_fl ≠ [] := by
  have h := c10_aux oracle opts hmax hmin 12 opts.force_warp true
    opts.max_feature_level opts.min_feature_level []
    (Or.inl hmax) (Or.inl hmin) (by intro a ha; cases ha) a ha
  refine ⟨h.1, h.2, ?_⟩
  rw [h.1, h.2]
  decide

/-- Witness for C10: a concrete run with both requested levels 0, an
always-failing platform and WARP fallback allowed; the first recorded
attempt uses the default range, whose level list is nonempty. -/
theorem c10_witness :
    (⟨false, true, D3D_FEATURE_LEVEL_11_0, D3D_FEATURE_LEVEL_9_1⟩ :
        Attempt).max_fl = D3D_FEATURE_LEVEL_11_0 ∧
    (⟨false, true, D3D_FEATURE_LEVEL_11_0, D3D_FEATURE_LEVEL_9_1⟩ :
        Attempt).min_fl = D3D_FEATURE_LEVEL_9_1 ∧
    get_feature_levels D3D_FEATURE_LEVEL_11_0 D3D_FEATURE_LEVEL_9_1 ≠ [] :=
  c10_zero_opts_use_defaults (fun _ _ _ _ => none)
    ⟨false, true, false, 0, 0, 3⟩ rfl rfl
    ⟨false, true, D3D_FEATURE_LEVEL_11_0, D3D_FEATURE_LEVEL_9_1⟩ (by decide)

/-! ## Claim C2: the retry loop terminates within the fallback ladder -/

/-- Remaining fallback capping steps available from an effective range:
the 12_0→11_1 cap and the 11_1→11_0 cap each buy at most one more pair
of attempts. -/
def capRank (max_fl min_fl : Int) : Nat :=
  if D3D_FEATURE_LEVEL_12_0 ≤ effMax max_fl ∧
      effMin min_fl ≤ D3D_FEATURE_LEVEL_11_1 then
    2 + (if effMin min_fl ≤ D3D_FEATURE_LEVEL_11_0 then 2 else 0)
  else if D3D_FEATURE_LEVEL_11_1 ≤ effMax max_fl ∧
      effMin min_fl ≤ D3D_FEATURE_LEVEL_11_0 then 2
  else 0

/-- Upper bound on the attempts remaining in one hardware-or-WARP pass. -/
def passRank : Bool → Int → Int → Nat
  | true, max_fl, min_fl => 2 + capRank max_fl min_fl
  | false, max_fl, min_fl => 1 + capRank max_fl min_fl

/-- Upper bound on the attempts remaining from a loop state; decreases
by at least one on every iteration of `create_loop`. -/
def rank (opts : d3d11_device_opts) (warp bgra : Bool)
    (max_fl min_fl : Int) : Nat :=
  passRank bgra max_fl min_fl +
  (if warp = false ∧ opts.allow_warp then
    passRank true opts.max_feature_level opts.min_feature_level
  else 0)

theorem effMax_idem (m : Int) : effMax (effMax m) = effMax m := by
  by_cases h : m = 0 <;> simp [effMax, h, D3D_FEATURE_LEVEL_11_0]

theorem effMin_idem (n : Int) : effMin (effMin n) = effMin n := by
  by_cases h : n = 0 <;> simp [effMin, h, D3D_FEATURE_LEVEL_9_1]

theorem capRank_eff (m n : Int) :
    capRank (effMax m) (effMin n) = capRank m n := by
  unfold capRank
  rw [effMax_idem, effMin_idem]

theorem one_le_rank (opts : d3d11_device_opts) (w b : Bool) (m n : Int) :
    1 ≤ rank opts w b m n := by
  cases b <;> simp only [rank, passRank] <;> omega

theorem rank_bgra_step (opts : d3d11_device_opts) (w : Bool) (m n : Int) :
    rank opts w false (effMax m) (effMin n) + 1 = rank opts w true m n := by
  unfold rank
  simp only [passRank]
  rw [capRank_eff]
  omega

theorem capRank_11_1 (n : Int) :
    capRank D3D_FEATURE_LEVEL_11_1 (effMin n) =
      if effMin n ≤ D3D_FEATURE_LEVEL_11_0 then 2 else 0 := by
  unfold capRank
  rw [effMin_idem,
    show effMax D3D_FEATURE_LEVEL_11_1 = D3D_FEATURE_LEVEL_11_1 from by decide,
    if_neg (fun h => absurd h.1 (by decide))]
  by_cases hn : effMin n ≤ D3D_FEATURE_LEVEL_11_0
  · rw [if_pos ⟨by decide, hn⟩, if_pos hn]
  · rw [if_neg (fun h => hn h.2), if_neg hn]

theorem capRank_11_0 (n : Int) :
    capRank D3D_FEATURE_LEVEL_11_0 (effMin n) = 0 := by
  unfold capRank
  rw [show effMax D3D_FEATURE_LEVEL_11_0 = D3D_FEATURE_LEVEL_11_0 from by decide,
    if_neg (fun h => absurd h.1 (by decide)),
    if_neg (fun h => absurd h.1 (by decide))]

theorem rank_le_twelve (opts : d3d11_device_opts) (w b : Bool) (m n : Int) :
    rank opts w b m n ≤ 12 := by
  have p : ∀ (c : Bool) (x y : Int), passRank c x y ≤ 6 := by
    intro c x y
    cases c <;> simp only [passRank] <;> (unfold capRank; split_ifs <;> omega)
  have h1 := p b m n
  have h2 := p true opts.max_feature_level opts.min_feature_level
  unfold rank
  split_ifs <;> omega

/-- Core bound: with fuel at least the rank of the state, the retry loop
finishes (never exhausts fuel) and appends at most `rank` attempts. -/
theorem create_loop_bound (oracle : Oracle) (opts : d3d11_device_opts) :
    ∀ (fuel : Nat) (warp bgra : Bool) (maxf minf : Int) (acc : List Attempt),
      rank opts warp bgra maxf minf ≤ fuel →
      (create_loop oracle opts fuel warp bgra maxf minf acc).finished = true ∧
      (create_loop oracle opts fuel warp bgra maxf minf acc).attempts.length ≤
        acc.length + rank opts warp bgra maxf minf := by
  intro fuel
  induction fuel with
  | zero =>
    intro warp bgra maxf minf acc hr
    have := one_le_rank opts warp bgra maxf minf
    omega
  | succ fuel ih =>
    intro warp bgra maxf minf acc hr
    rw [create_loop_succ]
    rcases hcd : create_device oracle warp bgra opts.debug
        (effMax maxf) (effMin minf) with _ | level <;> dsimp only
    · cases bgra with
      | true =>
        rw [if_pos rfl]
        have hstep := rank_bgra_step opts warp maxf minf
        have h := ih warp false (effMax maxf) (effMin minf)
          (acc ++ [⟨warp, true, effMax maxf, effMin minf⟩]) (by omega)
        refine ⟨h.1, ?_⟩
        have h2 := h.2
        simp only [List.length_append, List.length_singleton] at h2
        omega
      | false =>
        rw [if_neg (by simp)]
        split_ifs with h1 h2 h3
        · have hstep : rank opts warp true D3D_FEATURE_LEVEL_11_1 (effMin minf) + 1 =
              rank opts warp false maxf minf := by
            unfold rank
            simp only [passRank]
            rw [capRank_11_1]
            unfold capRank
            rw [if_pos h1]
            omega
          have h := ih warp true D3D_FEATURE_LEVEL_11_1 (effMin minf)
            (acc ++ [⟨warp, false, effMax maxf, effMin minf⟩]) (by omega)
          refine ⟨h.1, ?_⟩
          have h2 := h.2
          simp only [List.length_append, List.length_singleton] at h2
          omega
        · have hstep : rank opts warp true D3D_FEATURE_LEVEL_11_0 (effMin minf) + 1 ≤
              rank opts warp false maxf minf := by
            unfold rank
            simp only [passRank]
            rw [capRank_11_0]
            unfold capRank
            rw [if_neg h1, if_pos h2]
            omega
          have h := ih warp true D3D_FEATURE_LEVEL_11_0 (effMin minf)
            (acc ++ [⟨warp, false, effMax maxf, effMin minf⟩]) (by omega)
          refine ⟨h.1, ?_⟩
          have hl := h.2
          simp only [List.length_append, List.length_singleton] at hl
          omega
        · have hstep : rank opts true true
              opts.max_feature_level opts.min_feature_level + 1 ≤
              rank opts warp false maxf minf := by
            unfold rank
            simp only [passRank]
            rw [if_neg (by simp), if_pos h3]
            unfold capRank
            rw [if_neg h1, if_neg h2]
            omega
          have h := ih true true opts.max_feature_level opts.min_feature_level
            (acc ++ [⟨warp, false, effMax maxf, effMin minf⟩]) (by omega)
          refine ⟨h.1, ?_⟩
          have hl := h.2
          simp only [List.length_append, List.length_singleton] at hl
          omega
        · refine ⟨rfl, ?_⟩
          have := one_le_rank opts warp false maxf minf
          simp only [DevResult.attempts, List.length_append, List.length_singleton]
          omega
    · refine ⟨rfl, ?_⟩
      have := one_le_rank opts warp bgra maxf minf
      simp only [DevResult.attempts, List.length_append, List.length_singleton]
      omega

/-- C2: for every options struct and every platform behavior, the retry
loop of `mp_d3d11_create_present_device` terminates (the fuel of 12 is
never exhausted) and the total number of `create_device` creation calls
is bounded by the fallback ladder length 12: two BGRA settings at each
of at most three capability caps, for each of the hardware and WARP
passes. -/
theorem c2_loop_terminates_bounded (oracle : Oracle)
    (opts : d3d11_device_opts) :
    (mp_d3d11_create_present_device oracle opts).finished = true ∧
    (mp_d3d11_create_present_device oracle opts).attempts.length ≤ 12 := by
  have h := create_loop_bound oracle opts 12 opts.force_warp true
    opts.max_feature_level opts.min_feature_level []
    (rank_le_twelve opts opts.force_warp true
      opts.max_feature_level opts.min_feature_level)
  unfold mp_d3d11_create_present_device
  refine ⟨h.1, ?_⟩
  have h2 := h.2
  have h3 := rank_le_twelve opts opts.force_warp true
    opts.max_feature_level opts.min_feature_level
  simp only [List.length_nil] at h2
  omega

/-! ## Swapchain negotiation (`mp_d3d11_create_swapchain`) -/

/-- DXGI_FORMAT_B8G8R8A8_UNORM -/
def DXGI_FORMAT_B8G8R8A8_UNORM : Nat := 87
/-- DXGI_FORMAT_R8G8B8A8_UNORM -/
def DXGI_FORMAT_R8G8B8A8_UNORM : Nat := 28
/-- DXGI_SWAP_EFFECT_DISCARD -/
def DXGI_SWAP_EFFECT_DISCARD : Nat := 0
/-- DXGI_SWAP_EFFECT_FLIP_SEQUENTIAL -/
def DXGI_SWAP_EFFECT_FLIP_SEQUENTIAL : Nat := 3

/-- The static `formats[]` preference list: B8G8R8A8 first, since it is
the desktop image format, then R8G8B8A8. -/
def swapchain_formats : List Nat :=
  [DXGI_FORMAT_B8G8R8A8_UNORM, DXGI_FORMAT_R8G8B8A8_UNORM]

/-- The platform swapchain creation call, decided by the pair
(swap effect, pixel format): `true` means SUCCEEDED(hr). -/
def SwOracle : Type := Nat → Nat → Bool

/-- The inner `for (int i = 0; i < formats_len; i++)` loop: try each
format with `create_swapchain_1_2` (DXGI 1.2+, flip or discard effect)
when a factory2 is available, else `create_swapchain_1_1` (always
discard); break on the first success.  Returns the trace of
(swap effect, format) attempts and the successful format, if any. -/
def try_formats (oracle : SwOracle) (factory2 flip : Bool) :
    List Nat → List (Nat × Nat) × Option Nat
  | [] => ([], none)
  | f :: rest =>
    let effect :=
      if factory2 then
        (if flip then DXGI_SWAP_EFFECT_FLIP_SEQUENTIAL
         else DXGI_SWAP_EFFECT_DISCARD)
      else DXGI_SWAP_EFFECT_DISCARD
    if oracle effect f then ([(effect, f)], some f)
    else
      let r := try_formats oracle factory2 flip rest
      ((effect, f) :: r.1, r.2)

/-- Result of swapchain negotiation with the trace of attempts. -/
inductive SwResult where
  | success (flip : Bool) (format : Nat) (attempts : List (Nat × Nat))
  | failure (attempts : List (Nat × Nat))
deriving DecidableEq

/-- Trace of creation attempts recorded in a swapchain result. -/
def SwResult.attempts : SwResult → List (Nat × Nat)
  | .success _ _ a => a
  | .failure a => a

/-- Whether negotiation succeeded. -/
def SwResult.isSuccess : SwResult → Bool
  | .success _ _ _ => true
  | .failure _ => false

/-- The retry structure of `mp_d3d11_create_swapchain`:
`flip = factory2 && opts->flip`; one pass of the format loop; on total
failure, if `flip` was set, clear it and run one more pass (the
`do { ... } while (true)` can take this backward branch only once);
exhausting both passes is terminal failure.  The DXGI device/factory
querying, window-association override and logging around the loop are
not part of the negotiation and not modelled. -/
def mp_d3d11_create_swapchain (oracle : SwOracle)
    (factory2 optsFlip : Bool) : SwResult :=
  let flip := factory2 && optsFlip
  match try_formats oracle factory2 flip swapchain_formats with
  | (t1, some f) => .success flip f t1
  | (t1, none) =>
    if flip then
      match try_formats oracle factory2 false swapchain_formats with
      | (t2, some f) => .success false f (t1 ++ t2)
      | (t2, none) => .failure (t1 ++ t2)
    else .failure t1

/-- The full attempt ladder when DXGI 1.2 is available and flip mode is
requested: both formats under flip, then both formats under discard. -/
def swapchain_ladder : List (Nat × Nat) :=
  [(DXGI_SWAP_EFFECT_FLIP_SEQUENTIAL, DXGI_FORMAT_B8G8R8A8_UNORM),
   (DXGI_SWAP_EFFECT_FLIP_SEQUENTIAL, DXGI_FORMAT_R8G8B8A8_UNORM),
   (DXGI_SWAP_EFFECT_DISCARD, DXGI_FORMAT_B8G8R8A8_UNORM),
   (DXGI_SWAP_EFFECT_DISCARD, DXGI_FORMAT_R8G8B8A8_UNORM)]

/-- C5: with DXGI 1.2 available and flip requested, the attempts made by
`mp_d3d11_create_swapchain` are exactly the longest prefix of the fixed
ladder ending at the first success (the whole ladder when nothing
succeeds): R8G8B8A8 is tried under a presentation mode only after
B8G8R8A8 failed under that mode, and the legacy discard mode is tried
only after flip mode failed for both formats; negotiation succeeds iff
some ladder entry succeeds, so exhausting both modes is terminal
failure. -/
theorem c5_swapchain_ladder_order (oracle : SwOracle) :
    (mp_d3d11_create_swapchain oracle true true).attempts =
      swapchain_ladder.take
        (swapchain_ladder.findIdx (fun a => oracle a.1 a.2) + 1) ∧
    (mp_d3d11_create_swapchain oracle true true).isSuccess =
      swapchain_ladder.any (fun a => oracle a.1 a.2) := by
  cases h1 : oracle DXGI_SWAP_EFFECT_FLIP_SEQUENTIAL DXGI_FORMAT_B8G8R8A8_UNORM <;>
  cases h2 : oracle DXGI_SWAP_EFFECT_FLIP_SEQUENTIAL DXGI_FORMAT_R8G8B8A8_UNORM <;>
  cases h3 : oracle DXGI_SWAP_EFFECT_DISCARD DXGI_FORMAT_B8G8R8A8_UNORM <;>
  cases h4 : oracle DXGI_SWAP_EFFECT_DISCARD DXGI_FORMAT_R8G8B8A8_UNORM <;>
  simp [mp_d3d11_create_swapchain, try_formats, swapchain_formats,
    swapchain_ladder, SwResult.attempts, SwResult.isSuccess,
    List.findIdx_cons, h1, h2, h3, h4]

/-! ## Frame capture (`mp_d3d11_screenshot`) -/

/-- The two mpv image formats reachable from the screenshot helper. -/
inductive mp_imgfmt where
  | BGR0
  | RGB0
deriving DecidableEq

/-- The observable description of a D3D11 texture (backbuffer). -/
structure D3D11Texture2D where
  sampleCount : Nat
  format : Nat
  width : Nat
  height : Nat
deriving DecidableEq

/-- The observable state of a swapchain as seen by the screenshot
helper, together with the outcomes of the fallible platform calls it
makes (GetDesc, CreateTexture2D for the staging copy, Map, and the host
image allocation). -/
structure Swapchain where
  getDescOk : Bool
  swapEffect : Nat
  bufferCount : Nat
  getBuffer : Nat → Option D3D11Texture2D
  createStagingOk : Bool
  mapOk : Bool
  allocOk : Bool

/-- The captured image: format and pixel dimensions (the pixel payload
is a row-by-row copy, not modelled). -/
structure mp_image where
  imgfmt : mp_imgfmt
  w : Nat
  h : Nat
deriving DecidableEq

/-- The `switch (td.Format)` of `mp_d3d11_screenshot`: only the two
known formats map to an mpv image format. -/
def imgfmt_of_dxgi (format : Nat) : Option mp_imgfmt :=
  if format = DXGI_FORMAT_B8G8R8A8_UNORM then some mp_imgfmt.BGR0
  else if format = DXGI_FORMAT_R8G8B8A8_UNORM then some mp_imgfmt.RGB0
  else none

/-- `mp_d3d11_screenshot`: validate the swapchain (flip-sequential swap
effect only), read the last presented buffer at index
`BufferCount - 1`, reject multi-sampled buffers and unknown formats,
then copy through a staging texture; every failed step returns NULL
(`none`). -/
def mp_d3d11_screenshot (sc : Swapchain) : Option mp_image :=
  if sc.getDescOk = false then none
  else if sc.swapEffect ≠ DXGI_SWAP_EFFECT_FLIP_SEQUENTIAL then none
  else match sc.getBuffer (sc.bufferCount - 1) with
  | none => none
  | some frontbuffer =>
    if frontbuffer.sampleCount > 1 then none
    else match imgfmt_of_dxgi frontbuffer.format with
    | none => none
    | some fmt =>
      if sc.createStagingOk = false then none
      else if sc.mapOk = false then none
      else if sc.allocOk = false then none
      else some ⟨fmt, frontbuffer.width, frontbuffer.height⟩

/-- C6: `mp_d3d11_screenshot` returns `none` for any swapchain whose
swap effect is not flip-sequential, for any buffer with sample count
greater than 1, and for any buffer format outside the two supported
layouts; and when capture proceeds, the image comes from the buffer at
index `bufferCount - 1`, with B8G8R8A8 mapped to BGR0 and R8G8B8A8 to
RGB0. -/
theorem c6_screenshot_validation (sc : Swapchain) :
    (sc.swapEffect ≠ DXGI_SWAP_EFFECT_FLIP_SEQUENTIAL →
      mp_d3d11_screenshot sc = none) ∧
    (∀ tex, sc.getBuffer (sc.bufferCount - 1) = some tex →
      1 < tex.sampleCount → mp_d3d11_screenshot sc = none) ∧
    (∀ tex, sc.getBuffer (sc.bufferCount - 1) = some tex →
      tex.format ≠ DXGI_FORMAT_B8G8R8A8_UNORM →
      tex.format ≠ DXGI_FORMAT_R8G8B8A8_UNORM →
      mp_d3d11_screenshot sc = none) ∧
    (∀ img, mp_d3d11_screenshot sc = some img →
      ∃ tex, sc.getBuffer (sc.bufferCount - 1) = some tex ∧
        imgfmt_of_dxgi tex.format = some img.imgfmt ∧
        img.w = tex.width ∧ img.h = tex.height) := by
  refine ⟨?_, ?_, ?_, ?_⟩
  · intro h
    by_cases hd : sc.getDescOk = false <;> simp [mp_d3d11_screenshot, hd, h]
  · intro tex htex hs
    simp [mp_d3d11_screenshot, htex, hs]
  · intro tex htex h87 h28
    simp [mp_d3d11_screenshot, imgfmt_of_dxgi, htex, h87, h28]
  · intro img h
    rcases hb : sc.getBuffer (sc.bufferCount - 1) with _ | tex
    · simp [mp_d3d11_screenshot, hb] at h
    · rcases hf : imgfmt_of_dxgi tex.format with _ | fmt
      · simp [mp_d3d11_screenshot, hb, hf] at h
      · refine ⟨tex, rfl, ?_⟩
        simp only [mp_d3d11_screenshot, hb, hf] at h
        split_ifs at h
        injection h with h
        subst h
        exact ⟨hf, rfl, rfl⟩

/-- Concrete inputs for C6: a discard-effect swapchain, a multi-sampled
backbuffer, and an unsupported backbuffer format each yield `none`. -/
def screenshot_discard_swapchain : Swapchain :=
  ⟨true, DXGI_SWAP_EFFECT_DISCARD, 2,
   fun _ => some ⟨1, DXGI_FORMAT_B8G8R8A8_UNORM, 640, 480⟩, true, true, true⟩

/-- A flip-sequential swapchain whose backbuffer is multi-sampled. -/
def screenshot_msaa_swapchain : Swapchain :=
  ⟨true, DXGI_SWAP_EFFECT_FLIP_SEQUENTIAL, 2,
   fun _ => some ⟨4, DXGI_FORMAT_B8G8R8A8_UNORM, 640, 480⟩, true, true, true⟩

/-- A flip-sequential swapchain whose backbuffer format (R10G10B10A2 =
24) is outside the two supported layouts. -/
def screenshot_badfmt_swapchain : Swapchain :=
  ⟨true, DXGI_SWAP_EFFECT_FLIP_SEQUENTIAL, 2,
   fun _ => some ⟨1, 24, 640, 480⟩, true, true, true⟩

/-- Witness for C6 at the three concrete rejected inputs. -/
theorem c6_witness :
    mp_d3d11_screenshot screenshot_discard_swapchain = none ∧
    mp_d3d11_screenshot screenshot_msaa_swapchain = none ∧
    mp_d3d11_screenshot screenshot_badfmt_swapchain = none :=
  ⟨(c6_screenshot_validation screenshot_discard_swapchain).1 (by decide),
   (c6_screenshot_validation screenshot_msaa_swapchain).2.1
     ⟨4, DXGI_FORMAT_B8G8R8A8_UNORM, 640, 480⟩ rfl (by decide),
   (c6_screenshot_validation screenshot_badfmt_swapchain).2.2.1
     ⟨1, 24, 640, 480⟩ rfl (by decide) (by decide)⟩

/-! ## VideoToolbox OpenGL frame mapper (`video/out/opengl/hwdec_osx.c`) -/

/-- GL_RED -/
def GL_RED : Nat := 0x1903
/-- GL_RG -/
def GL_RG : Nat := 0x8227
/-- GL_RGB -/
def GL_RGB : Nat := 0x1907
/-- GL_RGBA -/
def GL_RGBA : Nat := 0x1908
/-- GL_BGRA -/
def GL_BGRA : Nat := 0x80E1
/-- GL_UNSIGNED_BYTE -/
def GL_UNSIGNED_BYTE : Nat := 0x1401
/-- GL_UNSIGNED_SHORT_8_8_APPLE -/
def GL_UNSIGNED_SHORT_8_8_APPLE : Nat := 0x85BA
/-- GL_UNSIGNED_INT_8_8_8_8_REV -/
def GL_UNSIGNED_INT_8_8_8_8_REV : Nat := 0x8367
/-- GL_RGB_422_APPLE -/
def GL_RGB_422_APPLE : Nat := 0x8A1F
/-- GL_TEXTURE_RECTANGLE -/
def GL_TEXTURE_RECTANGLE : Nat := 0x84F5

/-- kCVPixelFormatType_420YpCbCr8BiPlanarVideoRange, fourcc [420v] -/
def kCVPixelFormatType_420YpCbCr8BiPlanarVideoRange : Nat := 0x34323076
/-- kCVPixelFormatType_422YpCbCr8, fourcc [2vuy] -/
def kCVPixelFormatType_422YpCbCr8 : Nat := 0x32767579
/-- kCVPixelFormatType_420YpCbCr8Planar, fourcc [y420] -/
def kCVPixelFormatType_420YpCbCr8Planar : Nat := 0x79343230
/-- kCVPixelFormatType_32BGRA, fourcc [BGRA] -/
def kCVPixelFormatType_32BGRA : Nat := 0x42475241

/-- The mpv generic image formats named by the `vt_formats[]` table. -/
inductive imgfmt where
  | NV12
  | UYVY
  | yuv420p
  | BGR0
deriving DecidableEq

/-- MP_MAX_PLANES (value 4, from video/mp_image.h of the host player). -/
def MP_MAX_PLANES : Nat := 4

/-- `struct vt_gl_plane_format`. -/
structure vt_gl_plane_format where
  gl_format : Nat
  gl_type : Nat
  gl_internal_format : Nat
deriving DecidableEq

/-- `struct vt_format`. -/
structure vt_format where
  cvpixfmt : Nat
  imgfmt : imgfmt
  planes : Nat
  gl : List vt_gl_plane_format
  swizzle : String
deriving DecidableEq

/-- The static `vt_formats[]` capability table (entries in source
order; the swizzle field is zero-initialized, i.e. empty, unless the
source sets it). -/
def vt_formats : List vt_format :=
  [⟨kCVPixelFormatType_420YpCbCr8BiPlanarVideoRange, imgfmt.NV12, 2,
    [⟨GL_RED, GL_UNSIGNED_BYTE, GL_RED⟩,
     ⟨GL_RG, GL_UNSIGNED_BYTE, GL_RG⟩], ""⟩,
   ⟨kCVPixelFormatType_422YpCbCr8, imgfmt.UYVY, 1,
    [⟨GL_RGB_422_APPLE, GL_UNSIGNED_SHORT_8_8_APPLE, GL_RGB⟩], "gbra"⟩,
   ⟨kCVPixelFormatType_420YpCbCr8Planar, imgfmt.yuv420p, 3,
    [⟨GL_RED, GL_UNSIGNED_BYTE, GL_RED⟩,
     ⟨GL_RED, GL_UNSIGNED_BYTE, GL_RED⟩,
     ⟨GL_RED, GL_UNSIGNED_BYTE, GL_RED⟩], ""⟩,
   ⟨kCVPixelFormatType_32BGRA, imgfmt.BGR0, 1,
    [⟨GL_BGRA, GL_UNSIGNED_INT_8_8_8_8_REV, GL_RGBA⟩], ""⟩]

/-- `vt_get_gl_format`: first table entry whose native format matches. -/
def vt_get_gl_format (cvpixfmt : Nat) : Option vt_format :=
  vt_formats.find? (fun f => f.cvpixfmt == cvpixfmt)

/-- `vt_get_gl_format_from_imgfmt`: first table entry whose generic
format matches. -/
def vt_get_gl_format_from_imgfmt (fmt : imgfmt) : Option vt_format :=
  vt_formats.find? (fun f => f.imgfmt == fmt)

/-- The zero-copy shared surface of a buffer: per-plane dimensions as
reported by IOSurfaceGetWidthOfPlane/HeightOfPlane. -/
structure IOSurface where
  widthOfPlane : Nat → Nat
  heightOfPlane : Nat → Nat

/-- The observable state of a CVPixelBuffer: reported pixel format,
optional IOSurface backing, planarity and reported plane count. -/
structure CVPixelBuffer where
  pixelFormatType : Nat
  ioSurface : Option IOSurface
  isPlanar : Bool
  planeCount : Nat

/-- `struct priv`: the retained buffer and the persistent texture names
generated once at `create`. -/
structure priv where
  pbuf : Option CVPixelBuffer
  gl_planes : List Nat

/-- GL side effects performed by the mapper, recorded as a trace. -/
inductive GLCall where
  | genTextures (n : Nat)
  | bindTexture (target tex : Nat)
  | texImageIOSurface2D (target internal w h format typ plane : Nat)
  | logBindError (plane err : Nat)
  | deleteTextures (n : Nat)
deriving DecidableEq

/-- `struct gl_hwdec_plane` as written by `map_frame`. -/
structure gl_hwdec_plane where
  gl_texture : Nat
  gl_target : Nat
  tex_w : Nat
  tex_h : Nat
deriving DecidableEq

/-- The output frame: per-plane descriptors plus the swizzle string. -/
structure gl_hwdec_frame where
  planes : List gl_hwdec_plane
  swizzle : String
deriving DecidableEq

/-- Outcome of `map_frame`: -1 (`fail`), an `assert` abort
(`assertFail`), or 0 with the written output frame (`ok`). -/
inductive MapResult where
  | fail
  | assertFail
  | ok (frame : gl_hwdec_frame)
deriving DecidableEq

/-- One iteration of the per-plane loop in `map_frame`: bind the
persistent texture `p->gl_planes[i]`, attach the IOSurface plane with
the table's format triple (`CGLTexImageIOSurface2D`, whose error code
the oracle `cglErr` supplies — a nonzero code is logged), unbind, and
write the output plane descriptor. -/
def bind_plane (cglErr : Nat → Nat) (p : priv) (surface : IOSurface)
    (f : vt_format) (i : Nat) : List GLCall × gl_hwdec_plane :=
  let g := f.gl.getD i ⟨0, 0, 0⟩
  ([GLCall.bindTexture GL_TEXTURE_RECTANGLE (p.gl_planes.getD i 0),
    GLCall.texImageIOSurface2D GL_TEXTURE_RECTANGLE g.gl_internal_format
      (surface.widthOfPlane i) (surface.heightOfPlane i)
      g.gl_format g.gl_type i] ++
   (if cglErr i ≠ 0 then [GLCall.logBindError i (cglErr i)] else []) ++
   [GLCall.bindTexture GL_TEXTURE_RECTANGLE 0],
   ⟨p.gl_planes.getD i 0, GL_TEXTURE_RECTANGLE,
    surface.widthOfPlane i, surface.heightOfPlane i⟩)

/-- The `for (int i = 0; i < f->planes; i++)` loop over plane indices. -/
def map_planes (cglErr : Nat → Nat) (p : priv) (surface : IOSurface)
    (f : vt_format) : List Nat → List GLCall × List gl_hwdec_plane
  | [] => ([], [])
  | i :: rest =>
    let b := bind_plane cglErr p surface f i
    let r := map_planes cglErr p surface f rest
    (b.1 ++ r.1, b.2 :: r.2)

/-- `map_frame`: release the previously retained buffer and retain the
new one; fail if it exposes no IOSurface; look up the table entry by the
buffer's reported pixel format, failing if absent; `assert` the plane
consistency (`planar && planes == f->planes || f->planes == 1`); then
bind every plane and report the swizzle.  Returns the new `priv` state,
the GL call trace, and the outcome. -/
def map_frame (cglErr : Nat → Nat) (p : priv) (hw_image : CVPixelBuffer) :
    priv × List GLCall × MapResult :=
  match hw_image.ioSurface with
  | none => (⟨some hw_image, p.gl_planes⟩, [], MapResult.fail)
  | some surface =>
    match vt_get_gl_format hw_image.pixelFormatType with
    | none => (⟨some hw_image, p.gl_planes⟩, [], MapResult.fail)
    | some f =>
      if ¬((hw_image.isPlanar = true ∧ hw_image.planeCount = f.planes) ∨
          f.planes = 1) then
        (⟨some hw_image, p.gl_planes⟩, [], MapResult.assertFail)
      else
        (⟨some hw_image, p.gl_planes⟩,
         (map_planes cglErr ⟨some hw_image, p.gl_planes⟩ surface f
           (List.range f.planes)).1,
         MapResult.ok ⟨(map_planes cglErr ⟨some hw_image, p.gl_planes⟩
           surface f (List.range f.planes)).2, f.swizzle⟩)

/-- `create`: check the GL version and CGL context, then generate the
`MP_MAX_PLANES` persistent texture names (the oracle `genNames` is what
`glGenTextures` wrote into `p->gl_planes`). -/
def create (glVersion : Nat) (cglContextOk : Bool) (genNames : List Nat) :
    Option priv × List GLCall :=
  if glVersion < 300 then (none, [])
  else if cglContextOk = false then (none, [])
  else (some ⟨none, genNames⟩, [GLCall.genTextures MP_MAX_PLANES])

/-! ## Mapper lemmas -/

/-- Shape of `map_frame` when the buffer exposes no IOSurface. -/
theorem map_frame_no_surface (cglErr : Nat → Nat) (p : priv)
    (b : CVPixelBuffer) (h : b.ioSurface = none) :
    map_frame cglErr p b = (⟨some b, p.gl_planes⟩, [], MapResult.fail) := by
  unfold map_frame
  rw [h]

/-- Shape of `map_frame` when the buffer's format is not in the table. -/
theorem map_frame_no_entry (cglErr : Nat → Nat) (p : priv)
    (b : CVPixelBuffer) (surface : IOSurface)
    (hs : b.ioSurface = some surface)
    (hf : vt_get_gl_format b.pixelFormatType = none) :
    map_frame cglErr p b = (⟨some b, p.gl_planes⟩, [], MapResult.fail) := by
  unfold map_frame
  rw [hs, hf]

/-- Shape of `map_frame` when the plane-consistency assertion fires. -/
theorem map_frame_assert (cglErr : Nat → Nat) (p : priv)
    (b : CVPixelBuffer) (surface : IOSurface) (f : vt_format)
    (hs : b.ioSurface = some surface)
    (hf : vt_get_gl_format b.pixelFormatType = some f)
    (h : ¬((b.isPlanar = true ∧ b.planeCount = f.planes) ∨ f.planes = 1)) :
    map_frame cglErr p b = (⟨some b, p.gl_planes⟩, [], MapResult.assertFail) := by
  unfold map_frame
  rw [hs, hf]
  dsimp only
  rw [if_pos h]

/-- Shape of `map_frame` on the success path. -/
theorem map_frame_ok_eq (cglErr : Nat → Nat) (p : priv)
    (b : CVPixelBuffer) (surface : IOSurface) (f : vt_format)
    (hs : b.ioSurface = some surface)
    (hf : vt_get_gl_format b.pixelFormatType = some f)
    (hok : (b.isPlanar = true ∧ b.planeCount = f.planes) ∨ f.planes = 1) :
    map_frame cglErr p b =
      (⟨some b, p.gl_planes⟩,
       (map_planes cglErr ⟨some b, p.gl_planes⟩ surface f
         (List.range f.planes)).1,
       MapResult.ok ⟨(map_planes cglErr ⟨some b, p.gl_planes⟩ surface f
         (List.range f.planes)).2, f.swizzle⟩) := by
  unfold map_frame
  rw [hs, hf]
  dsimp only
  rw [if_neg (not_not_intro hok)]

/-- The plane descriptors written by the loop: one per index, with the
persistent texture name, the rectangle target and the per-plane surface
dimensions. -/
theorem map_planes_snd (cglErr : Nat → Nat) (p : priv) (surface : IOSurface)
    (f : vt_format) :
    ∀ xs : List Nat, (map_planes cglErr p surface f xs).2 =
      xs.map (fun i => (⟨p.gl_planes.getD i 0, GL_TEXTURE_RECTANGLE,
        surface.widthOfPlane i, surface.heightOfPlane i⟩ : gl_hwdec_plane)) := by
  intro xs
  induction xs with
  | nil => rfl
  | cons i rest ih => simp [map_planes, bind_plane, ih]

/-- A nonzero bind error for a looped-over plane shows up in the log. -/
theorem map_planes_log_mem (cglErr : Nat → Nat) (p : priv)
    (surface : IOSurface) (f : vt_format) :
    ∀ xs : List Nat, ∀ i ∈ xs, cglErr i ≠ 0 →
      GLCall.logBindError i (cglErr i) ∈ (map_planes cglErr p surface f xs).1 := by
  intro xs
  induction xs with
  | nil => intro i hi; cases hi
  | cons j rest ih =>
    intro i hi herr
    rcases List.mem_cons.1 hi with h | h
    · subst h
      simp [map_planes, bind_plane, herr]
    · simp only [map_planes, List.mem_append]
      exact Or.inr (ih i h herr)

/-- The loop never allocates texture objects. -/
theorem map_planes_no_gen (cglErr : Nat → Nat) (p : priv)
    (surface : IOSurface) (f : vt_format) :
    ∀ xs : List Nat, ∀ c ∈ (map_planes cglErr p surface f xs).1,
      ∀ n : Nat, c ≠ GLCall.genTextures n := by
  intro xs
  induction xs with
  | nil => intro c hc; exact absurd hc (by simp [map_planes])
  | cons j rest ih =>
    intro c hc n
    simp only [map_planes] at hc
    rcases List.mem_append.1 hc with h | h
    · by_cases herr : cglErr j ≠ 0
      · simp [bind_plane, herr] at h
        rcases h with rfl | rfl | rfl | rfl <;> simp
      · simp [bind_plane, herr] at h
        rcases h with rfl | rfl | rfl <;> simp
    · exact ih c h n

/-- `map_frame` never changes the persistent texture name array. -/
theorem map_frame_gl_planes (cglErr : Nat → Nat) (p : priv)
    (b : CVPixelBuffer) : (map_frame cglErr p b).1.gl_planes = p.gl_planes := by
  rcases hio : b.ioSurface with _ | surface
  · rw [map_frame_no_surface cglErr p b hio]
  · rcases hfm : vt_get_gl_format b.pixelFormatType with _ | f
    · rw [map_frame_no_entry cglErr p b surface hio hfm]
    · by_cases h : (b.isPlanar = true ∧ b.planeCount = f.planes) ∨ f.planes = 1
      · rw [map_frame_ok_eq cglErr p b surface f hio hfm h]
      · rw [map_frame_assert cglErr p b surface f hio hfm h]

/-- `map_frame` never emits a texture allocation call. -/
theorem map_frame_no_gen (cglErr : Nat → Nat) (p : priv) (b : CVPixelBuffer) :
    ∀ c ∈ (map_frame cglErr p b).2.1, ∀ n : Nat, c ≠ GLCall.genTextures n := by
  intro c hc n
  rcases hio : b.ioSurface with _ | surface
  · rw [map_frame_no_surface cglErr p b hio] at hc
    exact absurd hc (by simp)
  · rcases hfm : vt_get_gl_format b.pixelFormatType with _ | f
    · rw [map_frame_no_entry cglErr p b surface hio hfm] at hc
      exact absurd hc (by simp)
    · by_cases h : (b.isPlanar = true ∧ b.planeCount = f.planes) ∨ f.planes = 1
      · rw [map_frame_ok_eq cglErr p b surface f hio hfm h] at hc
        exact map_planes_no_gen cglErr ⟨some b, p.gl_planes⟩ surface f
          (List.range f.planes) c hc n
      · rw [map_frame_assert cglErr p b surface f hio hfm h] at hc
        exact absurd hc (by simp)

/-- Reading an element of `(List.range n).map fn` recovers `fn` at the
index. -/
theorem range_map_getElem {α : Type} (fn : Nat → α) (n i : Nat) (x : α)
    (h : ((List.range n).map fn)[i]? = some x) : x = fn i := by
  rw [List.getElem?_map] at h
  rcases hr : (List.range n)[i]? with _ | j
  · rw [hr] at h
    exact Option.noConfusion h
  · rw [hr] at h
    have hi : i < n := by
      by_contra hn
      have hnone : (List.range n)[i]? = none := by
        apply List.getElem?_eq_none
        simpa [List.length_range] using Nat.le_of_not_lt hn
      rw [hnone] at hr
      exact Option.noConfusion hr
    rw [List.getElem?_range hi] at hr
    injection hr with hj
    subst hj
    simp only [Option.map_some'] at h
    injection h with h
    exact h.symm

/-- Every plane descriptor of a successfully mapped frame carries the
persistent texture name `p->gl_planes[i]` of its plane index. -/
theorem map_frame_ok_tex (cglErr : Nat → Nat) (p : priv) (b : CVPixelBuffer) :
    ∀ fr, (map_frame cglErr p b).2.2 = MapResult.ok fr →
      ∀ (i : Nat) (pl : gl_hwdec_plane), fr.planes[i]? = some pl →
        pl.gl_texture = p.gl_planes.getD i 0 := by
  intro fr hfr i pl hpl
  rcases hio : b.ioSurface with _ | surface
  · rw [map_frame_no_surface cglErr p b hio] at hfr
    exact absurd hfr (by simp)
  · rcases hfm : vt_get_gl_format b.pixelFormatType with _ | f
    · rw [map_frame_no_entry cglErr p b surface hio hfm] at hfr
      exact absurd hfr (by simp)
    · by_cases h : (b.isPlanar = true ∧ b.planeCount = f.planes) ∨ f.planes = 1
      · rw [map_frame_ok_eq cglErr p b surface f hio hfm h] at hfr
        injection hfr with hfr2
        subst hfr2
        rw [map_planes_snd] at hpl
        have he := range_map_getElem _ f.planes i pl hpl
        rw [he]
      · rw [map_frame_assert cglErr p b surface f hio hfm h] at hfr
        exact absurd hfr (by simp)

/-! ## Claim C7: unmapped formats fail without touching texture state -/

/-- C7: if the buffer exposes no IOSurface or reports a pixel format
absent from the table, `map_frame` returns failure, performs no GL call
(binds no texture object, writes no output-frame plane descriptor), and
leaves the persistent texture names untouched. -/
theorem c7_unmapped_format_fails_clean (cglErr : Nat → Nat) (p : priv)
    (hw_image : CVPixelBuffer)
    (h : hw_image.ioSurface = none ∨
      vt_get_gl_format hw_image.pixelFormatType = none) :
    (map_frame cglErr p hw_image).2.2 = MapResult.fail ∧
    (map_frame cglErr p hw_image).2.1 = [] ∧
    (map_frame cglErr p hw_image).1.gl_planes = p.gl_planes := by
  rcases h with h | h
  · rw [map_frame_no_surface cglErr p hw_image h]
    exact ⟨rfl, rfl, rfl⟩
  · rcases hio : hw_image.ioSurface with _ | surface
    · rw [map_frame_no_surface cglErr p hw_image hio]
      exact ⟨rfl, rfl, rfl⟩
    · rw [map_frame_no_entry cglErr p hw_image surface hio h]
      exact ⟨rfl, rfl, rfl⟩

/-- A buffer whose reported pixel format (0) is absent from the table. -/
def unknown_format_buffer : CVPixelBuffer :=
  ⟨0, some ⟨fun _ => 640, fun _ => 480⟩, false, 0⟩

/-- Witness for C7 at a concrete unmapped buffer. -/
theorem c7_witness :
    (map_frame (fun _ => 0) ⟨none, [10, 11, 12, 13]⟩
      unknown_format_buffer).2.2 = MapResult.fail ∧
    (map_frame (fun _ => 0) ⟨none, [10, 11, 12, 13]⟩
      unknown_format_buffer).2.1 = [] ∧
    (map_frame (fun _ => 0) ⟨none, [10, 11, 12, 13]⟩
      unknown_format_buffer).1.gl_planes =
      (⟨none, [10, 11, 12, 13]⟩ : priv).gl_planes :=
  c7_unmapped_format_fails_clean (fun _ => 0) ⟨none, [10, 11, 12, 13]⟩
    unknown_format_buffer (Or.inr (by decide))

/-! ## Claim C8: per-plane bind errors are logged but non-fatal -/

/-- C8: on any buffer that passes surface extraction, table lookup and
the plane-count assertion, `map_frame` returns success and writes a
complete output plane descriptor for every table plane — regardless of
the per-plane `CGLTexImageIOSurface2D` error codes; a nonzero error for
a plane is logged and processing continues. -/
theorem c8_bind_error_nonfatal (cglErr : Nat → Nat) (p : priv)
    (hw_image : CVPixelBuffer) (surface : IOSurface) (f : vt_format)
    (hs : hw_image.ioSurface = some surface)
    (hf : vt_get_gl_format hw_image.pixelFormatType = some f)
    (hok : (hw_image.isPlanar = true ∧ hw_image.planeCount = f.planes) ∨
      f.planes = 1) :
    (map_frame cglErr p hw_image).2.2 =
      MapResult.ok ⟨(List.range f.planes).map (fun i =>
        ⟨p.gl_planes.getD i 0, GL_TEXTURE_RECTANGLE,
         surface.widthOfPlane i, surface.heightOfPlane i⟩), f.swizzle⟩ ∧
    (∀ i, i < f.planes → cglErr i ≠ 0 →
      GLCall.logBindError i (cglErr i) ∈ (map_frame cglErr p hw_image).2.1) := by
  rw [map_frame_ok_eq cglErr p hw_image surface f hs hf hok]
  constructor
  · rw [map_planes_snd]
  · intro i hi herr
    exact map_planes_log_mem cglErr ⟨some hw_image, p.gl_planes⟩ surface f
      (List.range f.planes) i (List.mem_range.2 hi) herr

/-- An NV12 buffer (bi-planar video range) with a matching 2-plane
surface. -/
def nv12_buffer : CVPixelBuffer :=
  ⟨kCVPixelFormatType_420YpCbCr8BiPlanarVideoRange,
   some ⟨fun _ => 640, fun _ => 480⟩, true, 2⟩

/-- Witness for C8: every plane bind fails (error code 1), yet both
plane descriptors are written with the persistent texture names and the
call succeeds; the error for plane 0 is logged. -/
theorem c8_witness :
    (map_frame (fun _ => 1) ⟨none, [10, 11, 12, 13]⟩ nv12_buffer).2.2 =
      MapResult.ok ⟨[⟨10, GL_TEXTURE_RECTANGLE, 640, 480⟩,
        ⟨11, GL_TEXTURE_RECTANGLE, 640, 480⟩], ""⟩ ∧
    GLCall.logBindError 0 1 ∈
      (map_frame (fun _ => 1) ⟨none, [10, 11, 12, 13]⟩ nv12_buffer).2.1 := by
  have h := c8_bind_error_nonfatal (fun _ => 1) ⟨none, [10, 11, 12, 13]⟩
    nv12_buffer ⟨fun _ => 640, fun _ => 480⟩
    ⟨kCVPixelFormatType_420YpCbCr8BiPlanarVideoRange, imgfmt.NV12, 2,
     [⟨GL_RED, GL_UNSIGNED_BYTE, GL_RED⟩, ⟨GL_RG, GL_UNSIGNED_BYTE, GL_RG⟩],
     ""⟩ rfl rfl (Or.inl ⟨rfl, rfl⟩)
  exact ⟨h.1, h.2 0 (by decide) (by decide)⟩

/-! ## Claim C9: persistent texture identities are reused across frames -/

/-- The names written by `glGenTextures` at `create` are the texture
array for the whole lifetime, and `create` emits exactly one
allocation call. -/
theorem create_gen_once (glVersion : Nat) (cglContextOk : Bool)
    (genNames : List Nat) (pr : priv)
    (h : (create glVersion cglContextOk genNames).1 = some pr) :
    pr.gl_planes = genNames ∧
    (create glVersion cglContextOk genNames).2 =
      [GLCall.genTextures MP_MAX_PLANES] := by
  unfold create at h ⊢
  by_cases h1 : glVersion < 300
  · rw [if_pos h1] at h
    exact Option.noConfusion h
  · rw [if_neg h1] at h ⊢
    by_cases h2 : cglContextOk = false
    · rw [if_pos h2] at h
      exact Option.noConfusion h
    · rw [if_neg h2] at h ⊢
      injection h with h
      subst h
      exact ⟨rfl, rfl⟩

/-- C9: across two consecutive `map_frame` calls the persistent texture
name array established at `create` is never changed, neither call emits
a texture allocation, and every plane descriptor either call writes
carries the persistent name `gl_planes[i]` of its plane index — the
same identity in both frames; `create` itself allocated those names
exactly once. -/
theorem c9_texture_identity_reuse (e1 e2 : Nat → Nat) (p : priv)
    (b1 b2 : CVPixelBuffer) :
    (map_frame e1 p b1).1.gl_planes = p.gl_planes ∧
    (map_frame e2 (map_frame e1 p b1).1 b2).1.gl_planes = p.gl_planes ∧
    (∀ c ∈ (map_frame e1 p b1).2.1, ∀ n : Nat, c ≠ GLCall.genTextures n) ∧
    (∀ c ∈ (map_frame e2 (map_frame e1 p b1).1 b2).2.1,
      ∀ n : Nat, c ≠ GLCall.genTextures n) ∧
    (∀ fr, (map_frame e1 p b1).2.2 = MapResult.ok fr →
      ∀ (i : Nat) (pl : gl_hwdec_plane), fr.planes[i]? = some pl →
        pl.gl_texture = p.gl_planes.getD i 0) ∧
    (∀ fr, (map_frame e2 (map_frame e1 p b1).1 b2).2.2 = MapResult.ok fr →
      ∀ (i : Nat) (pl : gl_hwdec_plane), fr.planes[i]? = some pl →
        pl.gl_texture = p.gl_planes.getD i 0) ∧
    (∀ (glVersion : Nat) (cglContextOk : Bool) (genNames : List Nat)
      (pr : priv), (create glVersion cglContextOk genNames).1 = some pr →
      pr.gl_planes = genNames ∧
      (create glVersion cglContextOk genNames).2 =
        [GLCall.genTextures MP_MAX_PLANES]) := by
  have h1 := map_frame_gl_planes e1 p b1
  have h2 := map_frame_gl_planes e2 (map_frame e1 p b1).1 b2
  refine ⟨h1, ?_, map_frame_no_gen e1 p b1, ?_, map_frame_ok_tex e1 p b1,
    ?_, create_gen_once⟩
  · rw [h2, h1]
  · exact map_frame_no_gen e2 (map_frame e1 p b1).1 b2
  · intro fr hfr i pl hpl
    have := map_frame_ok_tex e2 (map_frame e1 p b1).1 b2 fr hfr i pl hpl
    rw [this, h1]

/-- Witness for C9: two consecutive maps of NV12 buffers leave the name
array `[10, 11, 12, 13]` in place, and the plane-0 descriptor of the
second frame reuses texture name 10. -/
theorem c9_witness :
    (map_frame (fun _ => 0) ⟨none, [10, 11, 12, 13]⟩ nv12_buffer).1.gl_planes =
      ([10, 11, 12, 13] : List Nat) ∧
    (map_frame (fun _ => 0)
      (map_frame (fun _ => 0) ⟨none, [10, 11, 12, 13]⟩ nv12_buffer).1
      nv12_buffer).1.gl_planes = ([10, 11, 12, 13] : List Nat) ∧
    (⟨10, GL_TEXTURE_RECTANGLE, 640, 480⟩ : gl_hwdec_plane).gl_texture =
      ([10, 11, 12, 13] : List Nat).getD 0 0 := by
  have h := c9_texture_identity_reuse (fun _ => 0) (fun _ => 0)
    ⟨none, [10, 11, 12, 13]⟩ nv12_buffer nv12_buffer
  refine ⟨h.1, h.2.1, ?_⟩
  exact h.2.2.2.2.2.1
    ⟨[⟨10, GL_TEXTURE_RECTANGLE, 640, 480⟩,
      ⟨11, GL_TEXTURE_RECTANGLE, 640, 480⟩], ""⟩ (by decide) 0
    ⟨10, GL_TEXTURE_RECTANGLE, 640, 480⟩ (by decide)

/-! ## Claim C4: the plane-consistency assertion -/

/-- A planar 3-plane buffer reporting the UYVY pixel format, whose
table entry is single-plane. -/
def uyvy_planar_buffer : CVPixelBuffer :=
  ⟨kCVPixelFormatType_422YpCbCr8, some ⟨fun _ => 640, fun _ => 480⟩, true, 3⟩

/-- Counterexample to C4 as stated: a planar buffer (3 reported planes)
whose format maps to the single-plane UYVY table entry is NOT rejected —
the assertion `planar && planes == f->planes || f->planes == 1` is
satisfied by its second disjunct alone, and `map_frame` processes the
buffer and returns success. -/
theorem c4_counterexample :
    uyvy_planar_buffer.isPlanar = true ∧
    uyvy_planar_buffer.planeCount = 3 ∧
    vt_get_gl_format uyvy_planar_buffer.pixelFormatType =
      some ⟨kCVPixelFormatType_422YpCbCr8, imgfmt.UYVY, 1,
        [⟨GL_RGB_422_APPLE, GL_UNSIGNED_SHORT_8_8_APPLE, GL_RGB⟩], "gbra"⟩ ∧
    (map_frame (fun _ => 0) ⟨none, [10, 11, 12, 13]⟩
      uyvy_planar_buffer).2.2 =
      MapResult.ok ⟨[⟨10, GL_TEXTURE_RECTANGLE, 640, 480⟩], "gbra"⟩ ∧
    (map_frame (fun _ => 0) ⟨none, [10, 11, 12, 13]⟩
      uyvy_planar_buffer).2.2 ≠ MapResult.fail ∧
    (map_frame (fun _ => 0) ⟨none, [10, 11, 12, 13]⟩
      uyvy_planar_buffer).2.2 ≠ MapResult.assertFail := by
  decide

/-- C4 as amended: `map_frame` validates plane-count consistency only
for multi-plane table entries — such an entry requires a planar buffer
whose reported plane count equals the entry's plane count, and any
mismatch aborts on the assertion; a buffer matched to a single-plane
entry is accepted without any planarity or plane-count check and is
processed normally. -/
theorem c4_amended_multiplane_validation (cglErr : Nat → Nat) (p : priv)
    (b : CVPixelBuffer) (surface : IOSurface) (f : vt_format)
    (hs : b.ioSurface = some surface)
    (hf : vt_get_gl_format b.pixelFormatType = some f) :
    (f.planes ≠ 1 → ¬(b.isPlanar = true ∧ b.planeCount = f.planes) →
      (map_frame cglErr p b).2.2 = MapResult.assertFail) ∧
    ((b.isPlanar = true ∧ b.planeCount = f.planes) ∨ f.planes = 1 →
      (map_frame cglErr p b).2.2 ≠ MapResult.assertFail ∧
      (map_frame cglErr p b).2.2 ≠ MapResult.fail) := by
  constructor
  · intro h1 h2
    have hcond : ¬((b.isPlanar = true ∧ b.planeCount = f.planes) ∨
        f.planes = 1) := by
      rintro (h | h)
      · exact h2 h
      · exact h1 h
    rw [map_frame_assert cglErr p b surface f hs hf hcond]
  · intro hok
    rw [map_frame_ok_eq cglErr p b surface f hs hf hok]
    exact ⟨by simp, by simp⟩

/-- A non-planar buffer reporting the 2-plane NV12 pixel format. -/
def nv12_nonplanar_buffer : CVPixelBuffer :=
  ⟨kCVPixelFormatType_420YpCbCr8BiPlanarVideoRange,
   some ⟨fun _ => 640, fun _ => 480⟩, false, 0⟩

/-- Witness for the amended C4: the NV12 entry (2 planes) rejects a
non-planar buffer on the assertion, while the single-plane UYVY entry
accepts even a planar buffer. -/
theorem c4_amended_witness :
    (map_frame (fun _ => 0) ⟨none, [10, 11, 12, 13]⟩
      nv12_nonplanar_buffer).2.2 = MapResult.assertFail ∧
    (map_frame (fun _ => 0) ⟨none, [10, 11, 12, 13]⟩
      uyvy_planar_buffer).2.2 ≠ MapResult.assertFail := by
  have h1 := c4_amended_multiplane_validation (fun _ => 0)
    ⟨none, [10, 11, 12, 13]⟩ nv12_nonplanar_buffer
    ⟨fun _ => 640, fun _ => 480⟩
    ⟨kCVPixelFormatType_420YpCbCr8BiPlanarVideoRange, imgfmt.NV12, 2,
     [⟨GL_RED, GL_UNSIGNED_BYTE, GL_RED⟩, ⟨GL_RG, GL_UNSIGNED_BYTE, GL_RG⟩],
     ""⟩ rfl rfl
  have h2 := c4_amended_multiplane_validation (fun _ => 0)
    ⟨none, [10, 11, 12, 13]⟩ uyvy_planar_buffer
    ⟨fun _ => 640, fun _ => 480⟩
    ⟨kCVPixelFormatType_422YpCbCr8, imgfmt.UYVY, 1,
     [⟨GL_RGB_422_APPLE, GL_UNSIGNED_SHORT_8_8_APPLE, GL_RGB⟩], "gbra"⟩
    rfl rfl
  exact ⟨h1.1 (by decide) (by decide), (h2.2 (Or.inr rfl)).1⟩
